import Mathlib

/-!
Shallow embedding of `src/multigpu.py`: a multi-GPU (DDP) training and
inference harness for GraphSAGE and GAT node classification with DGL.

The embedding is shape- and configuration-level: tensors are modelled by
their shapes, the node-data frame `g.ndata` by an association list, the
samplers and DataLoader arguments by records matching the keyword
arguments in the script, and the failure modes of Python (IndexError,
AssertionError, UnboundLocalError) by `Except` / `Option`.
-/

namespace Multigpu

/-- A tensor, modelled by its shape: number of rows and columns.
Columns are `Int` because GAT widths are products with `Int` head counts. -/
structure Tensor where
  rows : Nat
  cols : Int
deriving Repr, DecidableEq

/-- `dgl.multiprocessing.shared_tensor(shape)`: allocates a host-shared
tensor of the given shape (lines 105-108 and 186-189 of the script). -/
def shared_tensor (rows : Nat) (cols : Int) : Tensor :=
  ⟨rows, cols⟩

/-- The node-data frame `g.ndata`: a keyed collection of tensors. -/
abbrev NData := List (String × Tensor)

/-- `g.ndata[k] = v`: dict-style assignment, overwriting the entry for `k`
when present and appending it otherwise. -/
def setCol (nd : NData) (k : String) (v : Tensor) : NData :=
  if nd.any (fun p => p.1 = k) then
    nd.map (fun p => if p.1 = k then (k, v) else p)
  else
    nd ++ [(k, v)]

/-- `g.ndata.pop(k)`: removes the entry for `k`. -/
def popCol (nd : NData) (k : String) : NData :=
  nd.filter (fun p => p.1 ≠ k)

/-- A DGL graph, as the script uses it: a node count and a node-data frame. -/
structure DGLGraph where
  numNodes : Nat
  ndata : NData
deriving Repr, DecidableEq

/-- The two sampler classes the script instantiates:
`NeighborSampler(fanouts, ..., fused=...)` (line 267) and
`MultiLayerFullNeighborSampler(n)` (lines 89 and 170). -/
inductive Sampler
  | neighbor (fanouts : List Nat) (fused : Bool)
  | fullNeighbor (numLayers : Nat)
deriving Repr, DecidableEq

/-- The arguments the script passes to `dgl.dataloading.DataLoader`. -/
structure DataLoaderCfg where
  indices : List Nat
  sampler : Sampler
  batchSize : Nat
  shuffle : Bool
  dropLast : Bool
  numWorkers : Nat
  useDdp : Bool
  useUva : Bool
deriving Repr, DecidableEq

/-- One `dglnn.SAGEConv(in, out, aggr)` layer (lines 71-73). -/
structure ConvSpec where
  in_dim : Nat
  out_dim : Nat
  aggregator : String
deriving Repr, DecidableEq

/-- The `SAGE` module: its layer list and the sizes it records. -/
structure SAGEModel where
  layers : List ConvSpec
  hid_size : Nat
  out_size : Nat
deriving Repr, DecidableEq

/-- `SAGE.__init__` (lines 67-76): three SAGEConv layers with "mean"
aggregation, `in_size -> hid_size -> hid_size -> out_size`. -/
def SAGE.init (in_size hid_size out_size : Nat) : SAGEModel :=
  { layers := [⟨in_size, hid_size, "mean"⟩,
               ⟨hid_size, hid_size, "mean"⟩,
               ⟨hid_size, out_size, "mean"⟩],
    hid_size := hid_size,
    out_size := out_size }

/-- Loop body of `SAGE.forward` (lines 78-85): apply each layer to its
block; after every layer except the final one (`l != len(self.layers)-1`)
apply ReLU then dropout. `total` is `len(self.layers)`. -/
def forwardGo {α β : Type} (relu dropout : α → α) (total : Nat) :
    Nat → List ((β → α → α) × β) → α → α
  | _, [], h => h
  | l, (layer, block) :: rest, h =>
    let h1 := layer block h
    let h2 := if l ≠ total - 1 then dropout (relu h1) else h1
    forwardGo relu dropout total (l + 1) rest h2

/-- `SAGE.forward(blocks, x)` (lines 78-85), with the layer computations,
ReLU and dropout abstract: `zip(self.layers, blocks)` then the loop. -/
def SAGE.forward {α β : Type} (relu dropout : α → α)
    (layers : List (β → α → α)) (blocks : List β) (x : α) : α :=
  forwardGo relu dropout layers.length 0 (layers.zip blocks) x

/-- One `dglnn.GATConv(...)` layer (lines 148-155). -/
structure GATConvSpec where
  in_dim : Int
  out_dim : Nat
  num_heads : Int
  hasActivation : Bool
  allow_zero_in_degree : Bool
deriving Repr, DecidableEq

/-- The ways `GAT.__init__` can raise: `n_heads[-1]` on an empty list is
an IndexError; `assert n_heads[-1] == 1` failing is an AssertionError. -/
inductive GATErr
  | indexError
  | assertionError
deriving Repr, DecidableEq

/-- The `GAT` module: its layer list and the sizes it records. -/
structure GATModel where
  n_layers : Nat
  hid_size : Nat
  out_size : Nat
  n_heads : List Int
  layers : List GATConvSpec
deriving Repr, DecidableEq

/-- `GAT.__init__` (lines 126-155): `n_layers = len(n_heads)`, then
`assert n_heads[-1] == 1`, then one GATConv per `i in range(n_layers)`
with `in_dim = in_size if i == 0 else hid_size * n_heads[i-1]`,
`out_dim = out_size if i == n_layers-1 else hid_size`, and activation
`None` exactly on the last layer. -/
def GAT.init (in_size hid_size out_size : Nat) (n_heads : List Int) :
    Except GATErr GATModel :=
  let n_layers := n_heads.length
  match n_heads.getLast? with
  | none => .error .indexError
  | some hLast =>
    if hLast = 1 then
      .ok { n_layers := n_layers,
            hid_size := hid_size,
            out_size := out_size,
            n_heads := n_heads,
            layers := (List.range n_layers).map (fun i =>
              { in_dim := if i = 0 then (in_size : Int)
                          else (hid_size : Int) * n_heads.getD (i - 1) 0,
                out_dim := if i = n_layers - 1 then out_size else hid_size,
                num_heads := n_heads.getD i 0,
                hasActivation := i ≠ n_layers - 1,
                allow_zero_in_degree := true }) }
    else
      .error .assertionError

/-- The model object `run` builds: a SAGE or a GAT instance. -/
inductive Model
  | sage (m : SAGEModel)
  | gat (m : GATModel)
deriving Repr, DecidableEq

/-- How the model-building step of `run` (lines 372-378) can fail:
GAT construction errors propagate, and any other model string leaves
`model` unassigned so `DistributedDataParallel(model, ...)` raises
UnboundLocalError. -/
inductive RunErr
  | gatIndexError
  | gatAssertionError
  | unboundLocalModel
deriving Repr, DecidableEq

/-- Model selection in `run` (lines 372-378): `if args.model == "sage"`
build SAGE, `elif args.model == "gat"` build GAT, otherwise no branch
assigns `model` and the following `DistributedDataParallel(model, ...)`
call raises UnboundLocalError. -/
def runBuildModel (modelArg : String) (in_size hidden_dim num_classes : Nat)
    (head : List Int) : Except RunErr Model :=
  if modelArg = "sage" then
    .ok (.sage (SAGE.init in_size hidden_dim num_classes))
  else if modelArg = "gat" then
    match GAT.init in_size hidden_dim num_classes head with
    | .ok g => .ok (.gat g)
    | .error .indexError => .error .gatIndexError
    | .error .assertionError => .error .gatAssertionError
  else
    .error .unboundLocalModel

/-- Split a character list at every occurrence of `sep`, keeping empty
pieces, as Python `str.split(sep)` does. -/
def pySplitAux (sep : Char) : List Char → List Char → List (List Char)
  | [], acc => [acc.reverse]
  | c :: cs, acc =>
    if c = sep then acc.reverse :: pySplitAux sep cs []
    else pySplitAux sep cs (c :: acc)

/-- Python `s.split(sep)` for a one-character separator. -/
def pySplit (s : String) (sep : Char) : List String :=
  (pySplitAux sep s.data []).map (fun cs => ⟨cs⟩)

/-- Strip leading and trailing whitespace, as Python `int` does before
reading the number. -/
def trimWs (cs : List Char) : List Char :=
  ((cs.dropWhile Char.isWhitespace).reverse.dropWhile Char.isWhitespace).reverse

/-- Value of a nonempty digit string, as Python `int` reads it. -/
def digitsVal (cs : List Char) : Option Nat :=
  match cs with
  | [] => none
  | _ => cs.foldlM
      (fun acc c => if c.isDigit then some (acc * 10 + (c.toNat - 48)) else none)
      0

/-- Python `int(s)` on a decimal string: optional surrounding whitespace,
optional sign, then digits; anything else raises (modelled as `none`). -/
def pyInt (s : String) : Option Int :=
  match trimWs s.data with
  | [] => none
  | c :: cs =>
    if c = '-' then (digitsVal cs).map (fun n => -(n : Int))
    else if c = '+' then (digitsVal cs).map (fun n => (n : Int))
    else (digitsVal (c :: cs)).map (fun n => (n : Int))

/-- Line 469: `args.head = [int(head) for head in args.head.split(",")]`. -/
def parseHead (s : String) : Option (List Int) :=
  (pySplit s ',').mapM pyInt

/-- Line 470: `devices = list(map(int, args.gpu.split(",")))`. -/
def mainDevices (gpu : String) : Option (List Int) :=
  (pySplit gpu ',').mapM pyInt

/-- `mp.spawn(run, args=..., nprocs=nprocs)` (lines 496-500): spawns
worker processes with `proc_id` ranging over `0 .. nprocs-1`. -/
def spawnProcIds (nprocs : Nat) : List Nat :=
  List.range nprocs

/-- Line 336: `device = devices[proc_id]`; Python list indexing raises
IndexError out of range, modelled by `Option`. -/
def runDevice (devices : List Int) (proc_id : Nat) : Option Int :=
  devices[proc_id]?

/-- The DataLoader built in each layer iteration of `SAGE.inference` /
`GAT.inference` (lines 91-102 and 172-183): indices
`torch.arange(g.num_nodes())`, the full-neighbor sampler, and
`shuffle=False, drop_last=False, num_workers=0, use_ddp=True`. -/
def inferLoaderCfg (numNodes batch_size : Nat) (use_uva : Bool) : DataLoaderCfg :=
  { indices := List.range numNodes,
    sampler := .fullNeighbor 1,
    batchSize := batch_size,
    shuffle := false,
    dropLast := false,
    numWorkers := 0,
    useDdp := true,
    useUva := use_uva }

/-- The per-layer loop shared by `SAGE.inference` (lines 90-120) and
`GAT.inference` (lines 171-202), with the output width of layer `l`
given by `colsOf l`: build the DataLoader, allocate the shared output
tensor `y` of `g.num_nodes()` rows, fill it batch by batch (shape
unchanged), and store it as `g.ndata["h"]`. Returns the loader configs,
the node-data frame after the loop, and the final `y` (`none` when the
loop never ran, in which case `return y` would raise NameError). -/
def inferStepsWith (numNodes batch_size : Nat) (use_uva : Bool)
    (colsOf : Nat → Int) :
    List Nat → NData → Option Tensor →
    List DataLoaderCfg × NData × Option Tensor
  | [], nd, y => ([], nd, y)
  | l :: ls, nd, _ =>
    let cfg := inferLoaderCfg numNodes batch_size use_uva
    let y := shared_tensor numNodes (colsOf l)
    let nd1 := setCol nd "h" y
    let r := inferStepsWith numNodes batch_size use_uva colsOf ls nd1 (some y)
    (cfg :: r.1, r.2.1, r.2.2)

/-- What inference produces: the DataLoader configurations it built, the
node-data frame it leaves behind, and the returned output tensor. -/
structure InferResult where
  loaders : List DataLoaderCfg
  ndataAfter : NData
  output : Tensor
deriving Repr, DecidableEq

/-- Common body of `SAGE.inference` (lines 87-123) and `GAT.inference`
(lines 168-205), with the layer count and the per-layer output width as
parameters: `g.ndata["h"] = g.ndata["features"]` (KeyError when absent),
the per-layer loop over `range(len(self.layers))`, then
`g.ndata.pop("h")` and `return y`. -/
def inferenceBody (numNodes : Nat) (ndata : NData) (batch_size : Nat)
    (use_uva : Bool) (total : Nat) (colsOf : Nat → Int) : Option InferResult :=
  match ndata.lookup "features" with
  | none => none
  | some feats =>
    let nd0 := setCol ndata "h" feats
    let r := inferStepsWith numNodes batch_size use_uva colsOf
        (List.range total) nd0 none
    match r.2.2 with
    | none => none
    | some y => some ⟨r.1, popCol r.2.1 "h", y⟩

/-- `SAGE.inference(g, device, batch_size, use_uva)` (lines 87-123):
the shared body with `y` of width `hid_size` except `out_size` on the
last layer (line 107). -/
def SAGE.inference (m : SAGEModel) (g : DGLGraph) (batch_size : Nat)
    (use_uva : Bool) : Option InferResult :=
  inferenceBody g.numNodes g.ndata batch_size use_uva m.layers.length
    (fun l => if l ≠ m.layers.length - 1 then (m.hid_size : Int)
              else (m.out_size : Int))

/-- `GAT.inference(g, device, batch_size, use_uva)` (lines 168-205):
the shared body with `y` of width `hid_size * n_heads[l]` except
`out_size * n_heads[l]` on the last layer (line 188). -/
def GAT.inference (m : GATModel) (g : DGLGraph) (batch_size : Nat)
    (use_uva : Bool) : Option InferResult :=
  inferenceBody g.numNodes g.ndata batch_size use_uva m.layers.length
    (fun l => if l ≠ m.layers.length - 1 then (m.hid_size : Int) * m.n_heads.getD l 0
              else (m.out_size : Int) * m.n_heads.getD l 0)

/-- The two DataLoaders `train` builds (lines 266-296): the shared
`NeighborSampler([10, 10, 10], ..., fused=(args.mode != "benchmark"))`
and the keyword arguments of `train_dataloader` and `val_dataloader`. -/
def train.loaderCfgs (mode : String) (num_workers : Nat)
    (train_idx val_idx : List Nat) (use_uva : Bool) : List DataLoaderCfg :=
  let sampler := Sampler.neighbor [10, 10, 10] (mode ≠ "benchmark")
  [ { indices := train_idx,
      sampler := sampler,
      batchSize := 1000,
      shuffle := true,
      dropLast := false,
      numWorkers := num_workers,
      useDdp := true,
      useUva := use_uva },
    { indices := val_idx,
      sampler := sampler,
      batchSize := 1000,
      shuffle := true,
      dropLast := false,
      numWorkers := num_workers,
      useDdp := true,
      useUva := use_uva } ]

/-- Line 381: `use_uva = args.mode == "mixed"`. -/
def run.use_uva (mode : String) : Bool :=
  mode == "mixed"

/-- `run` passes its `use_uva` to `train` (lines 385-396), which builds
both training and validation DataLoaders with it. -/
def run.trainCfgs (mode : String) (num_workers : Nat)
    (train_idx val_idx : List Nat) : List DataLoaderCfg :=
  train.loaderCfgs mode num_workers train_idx val_idx (run.use_uva mode)

/-- Outcome of `layerwise_infer`: whether the graph was copied to the
device first, and the inference result. -/
structure InferOutcome where
  graphMovedToDevice : Bool
  result : InferResult
deriving Repr, DecidableEq

/-- `layerwise_infer` (lines 227-250): `if not use_uva: g = g.to(device)`,
then `model.module.inference(g, device, batch_size, use_uva)`. -/
def layerwise_infer (g : DGLGraph) (model : Model) (use_uva : Bool)
    (batch_size : Nat) : Option InferOutcome :=
  let moved := !use_uva
  match model with
  | .sage m => (SAGE.inference m g batch_size use_uva).map (fun r => ⟨moved, r⟩)
  | .gat m => (GAT.inference m g batch_size use_uva).map (fun r => ⟨moved, r⟩)

/-- `run` calls `layerwise_infer` with its `use_uva` (line 402) and the
default `batch_size=2**10` (line 235). -/
def run.layerwiseInfer (mode : String) (g : DGLGraph) (model : Model) :
    Option InferOutcome :=
  layerwise_infer g model (run.use_uva mode) (2 ^ 10)

/-- The arguments of `dist.init_process_group` (lines 354-359). -/
structure ProcessGroupCfg where
  backend : String
  init_method : String
  world_size : Nat
  rank : Nat
deriving Repr, DecidableEq

/-- Lines 354-359: NCCL backend, TCP rendezvous, `world_size=nprocs`,
`rank=proc_id`. -/
def run.processGroup (nprocs proc_id : Nat) : ProcessGroupCfg :=
  { backend := "nccl",
    init_method := "tcp://127.0.0.1:12345",
    world_size := nprocs,
    rank := proc_id }

/-- The distributed-training state `run` sets up on success. -/
structure RunSetup where
  pg : ProcessGroupCfg
  model : Model
  ddpWrapped : Bool
  use_uva : Bool
deriving Repr, DecidableEq

/-- Setup phase of `run` (lines 354-381): initialize the process group,
build the model, wrap it in `DistributedDataParallel` (line 376; reached
only when a model was assigned), and compute `use_uva`. -/
def run.setup (proc_id nprocs : Nat) (mode modelArg : String)
    (in_size hidden_dim num_classes : Nat) (head : List Int) :
    Except RunErr RunSetup :=
  (runBuildModel modelArg in_size hidden_dim num_classes head).map
    (fun m =>
      { pg := run.processGroup nprocs proc_id,
        model := m,
        ddpWrapped := true,
        use_uva := run.use_uva mode })

/-- The operations of one iteration of the training loop (lines 303-312):
forward pass, cross-entropy loss, `opt.zero_grad()`, `loss.backward()`,
`opt.step()`. -/
inductive TrainOp
  | forwardPass
  | lossCompute
  | zeroGrad
  | backward
  | optStep
deriving Repr, DecidableEq

/-- The per-iteration operation sequence of the training loop
(lines 303-312). -/
def train.stepOps : List TrainOp :=
  [.forwardPass, .lossCompute, .zeroGrad, .backward, .optStep]

/-- DistributedDataParallel semantics, as the script's own comment states
(lines 341-343): with a DDP-wrapped model, gradients are synchronized
across the replicas during `loss.backward()`. -/
def syncsGradients (ddpWrapped : Bool) (op : TrainOp) : Bool :=
  ddpWrapped && op == .backward

/-! ### Helper lemmas about the node-data frame -/

theorem lookup_cons_pair (a k : String) (v : Tensor) (nd : NData) :
    ((k, v) :: nd).lookup a = if a = k then some v else nd.lookup a := by
  by_cases h : a = k
  · simp [List.lookup, h]
  · simp [List.lookup, h, beq_eq_false_iff_ne.mpr h]

theorem lookup_map_overwrite (k a : String) (v : Tensor) (h : a ≠ k) :
    ∀ nd : NData,
      (nd.map (fun p => if p.1 = k then (k, v) else p)).lookup a = nd.lookup a := by
  intro nd
  induction nd with
  | nil => rfl
  | cons p tl ih =>
    obtain ⟨x, y⟩ := p
    by_cases hxk : x = k
    · subst hxk
      simp [lookup_cons_pair, h, ih]
    · simp [hxk, lookup_cons_pair, ih]

theorem lookup_append_single (k a : String) (v : Tensor) (h : a ≠ k) :
    ∀ nd : NData, (nd ++ [(k, v)]).lookup a = nd.lookup a := by
  intro nd
  induction nd with
  | nil => simp [List.lookup, beq_eq_false_iff_ne.mpr h]
  | cons p tl ih =>
    obtain ⟨x, y⟩ := p
    simp [lookup_cons_pair, ih]

theorem lookup_setCol_ne (nd : NData) (k a : String) (v : Tensor) (h : a ≠ k) :
    (setCol nd k v).lookup a = nd.lookup a := by
  unfold setCol
  split
  · exact lookup_map_overwrite k a v h nd
  · exact lookup_append_single k a v h nd

theorem lookup_popCol_self (k : String) :
    ∀ nd : NData, (popCol nd k).lookup k = none := by
  intro nd
  induction nd with
  | nil => rfl
  | cons p tl ih =>
    obtain ⟨x, y⟩ := p
    by_cases hxk : x = k
    · simpa [popCol, List.filter_cons, hxk] using ih
    · simpa [popCol, List.filter_cons, hxk, lookup_cons_pair, Ne.symm hxk] using ih

theorem lookup_popCol_ne (k a : String) (h : a ≠ k) :
    ∀ nd : NData, (popCol nd k).lookup a = nd.lookup a := by
  intro nd
  induction nd with
  | nil => rfl
  | cons p tl ih =>
    obtain ⟨x, y⟩ := p
    by_cases hxk : x = k
    · subst hxk
      simp only [popCol, ne_eq, decide_not] at ih ⊢
      simpa [List.filter_cons, lookup_cons_pair, h] using ih
    · simp only [popCol, ne_eq, decide_not] at ih ⊢
      simp [List.filter_cons, hxk, lookup_cons_pair, ih]

/-! ### Helper lemmas about the inference loop -/

theorem inferStepsWith_loaders (numNodes batch_size : Nat) (use_uva : Bool)
    (colsOf : Nat → Int) :
    ∀ (ls : List Nat) (nd : NData) (y0 : Option Tensor),
      (inferStepsWith numNodes batch_size use_uva colsOf ls nd y0).1 =
        ls.map (fun _ => inferLoaderCfg numNodes batch_size use_uva) := by
  intro ls
  induction ls with
  | nil => intro nd y0; rfl
  | cons l ls ih =>
    intro nd y0
    simp [inferStepsWith, ih]

theorem inferStepsWith_ndata (numNodes batch_size : Nat) (use_uva : Bool)
    (colsOf : Nat → Int) (a : String) (h : a ≠ "h") :
    ∀ (ls : List Nat) (nd : NData) (y0 : Option Tensor),
      ((inferStepsWith numNodes batch_size use_uva colsOf ls nd y0).2.1).lookup a =
        nd.lookup a := by
  intro ls
  induction ls with
  | nil => intro nd y0; rfl
  | cons l ls ih =>
    intro nd y0
    simp only [inferStepsWith]
    rw [ih]
    exact lookup_setCol_ne nd "h" a _ h

theorem inferStepsWith_output (numNodes batch_size : Nat) (use_uva : Bool)
    (colsOf : Nat → Int) :
    ∀ (ls : List Nat) (nd : NData) (y0 : Option Tensor), ls ≠ [] →
      ∃ t, (inferStepsWith numNodes batch_size use_uva colsOf ls nd y0).2.2 = some t ∧
        t.rows = numNodes := by
  intro ls
  induction ls with
  | nil => intro nd y0 h; exact absurd rfl h
  | cons l ls ih =>
    intro nd y0 _
    cases ls with
    | nil => exact ⟨shared_tensor numNodes (colsOf l), rfl, rfl⟩
    | cons l2 ls2 =>
      have h2 := ih (setCol nd "h" (shared_tensor numNodes (colsOf l)))
        (some (shared_tensor numNodes (colsOf l))) (by simp)
      simpa [inferStepsWith] using h2

theorem inferenceBody_spec (numNodes : Nat) (ndata : NData) (batch_size : Nat)
    (use_uva : Bool) (total : Nat) (colsOf : Nat → Int) (feats : Tensor)
    (hf : ndata.lookup "features" = some feats) (ht : 0 < total) :
    ∃ r, inferenceBody numNodes ndata batch_size use_uva total colsOf = some r ∧
      r.loaders = (List.range total).map
        (fun _ => inferLoaderCfg numNodes batch_size use_uva) ∧
      r.output.rows = numNodes ∧
      r.ndataAfter.lookup "h" = none ∧
      (∀ a, a ≠ "h" → r.ndataAfter.lookup a = ndata.lookup a) := by
  have hne : List.range total ≠ [] := by
    simpa [List.range_eq_nil] using Nat.pos_iff_ne_zero.mp ht
  obtain ⟨t, hout, hrows⟩ := inferStepsWith_output numNodes batch_size use_uva
    colsOf (List.range total) (setCol ndata "h" feats) none hne
  refine ⟨⟨(inferStepsWith numNodes batch_size use_uva colsOf (List.range total)
      (setCol ndata "h" feats) none).1,
    popCol (inferStepsWith numNodes batch_size use_uva colsOf (List.range total)
      (setCol ndata "h" feats) none).2.1 "h", t⟩, ?_, ?_, ?_, ?_, ?_⟩
  · simp only [inferenceBody, hf, hout]
  · simpa using inferStepsWith_loaders numNodes batch_size use_uva colsOf
      (List.range total) (setCol ndata "h" feats) none
  · exact hrows
  · exact lookup_popCol_self "h" _
  · intro a ha
    rw [lookup_popCol_ne "h" a ha]
    rw [inferStepsWith_ndata numNodes batch_size use_uva colsOf a ha]
    exact lookup_setCol_ne ndata "h" a feats ha

/-! ### Helper lemmas about model construction and inference results -/

theorem GAT.init_ok (in_size hid_size out_size : Nat) (n_heads : List Int)
    (m : GATModel)
    (h : GAT.init in_size hid_size out_size n_heads = .ok m) :
    n_heads.getLast? = some 1 ∧ m.layers.length = n_heads.length ∧
    m.hid_size = hid_size ∧ m.out_size = out_size ∧ m.n_heads = n_heads := by
  unfold GAT.init at h
  cases hL : n_heads.getLast? with
  | none =>
    rw [hL] at h
    exact absurd h (by simp)
  | some hd =>
    rw [hL] at h
    by_cases h1 : hd = 1
    · subst h1
      simp only [↓reduceIte, Except.ok.injEq] at h
      subst h
      simp
    · simp [h1] at h

theorem GAT.init_of_getLast (in_size hid_size out_size : Nat) (n_heads : List Int)
    (h : n_heads.getLast? = some 1) :
    ∃ m, GAT.init in_size hid_size out_size n_heads = .ok m := by
  unfold GAT.init
  rw [h]
  exact ⟨_, rfl⟩

theorem inferenceBody_loaders (numNodes : Nat) (ndata : NData) (batch_size : Nat)
    (use_uva : Bool) (total : Nat) (colsOf : Nat → Int) (r : InferResult)
    (h : inferenceBody numNodes ndata batch_size use_uva total colsOf = some r) :
    ∀ cfg ∈ r.loaders, cfg = inferLoaderCfg numNodes batch_size use_uva := by
  unfold inferenceBody at h
  cases hf : ndata.lookup "features" with
  | none =>
    rw [hf] at h
    simp at h
  | some feats =>
    rw [hf] at h
    simp only at h
    cases hy : (inferStepsWith numNodes batch_size use_uva colsOf
        (List.range total) (setCol ndata "h" feats) none).2.2 with
    | none =>
      rw [hy] at h
      simp at h
    | some y =>
      rw [hy] at h
      simp only [Option.some.injEq] at h
      subst h
      intro cfg hcfg
      simp only [inferStepsWith_loaders, List.mem_map] at hcfg
      obtain ⟨_, _, hc⟩ := hcfg
      exact hc.symm

theorem inferenceBody_frame (numNodes : Nat) (ndata : NData) (batch_size : Nat)
    (use_uva : Bool) (total : Nat) (colsOf : Nat → Int) (r : InferResult)
    (h : inferenceBody numNodes ndata batch_size use_uva total colsOf = some r) :
    r.ndataAfter.lookup "h" = none ∧
    ∀ a, a ≠ "h" → r.ndataAfter.lookup a = ndata.lookup a := by
  unfold inferenceBody at h
  cases hf : ndata.lookup "features" with
  | none =>
    rw [hf] at h
    simp at h
  | some feats =>
    rw [hf] at h
    simp only at h
    cases hy : (inferStepsWith numNodes batch_size use_uva colsOf
        (List.range total) (setCol ndata "h" feats) none).2.2 with
    | none =>
      rw [hy] at h
      simp at h
    | some y =>
      rw [hy] at h
      simp only [Option.some.injEq] at h
      subst h
      refine ⟨lookup_popCol_self "h" _, ?_⟩
      intro a ha
      rw [lookup_popCol_ne "h" a ha]
      rw [inferStepsWith_ndata numNodes batch_size use_uva colsOf a ha]
      exact lookup_setCol_ne ndata "h" a feats ha

theorem mapM_pyInt_length : ∀ (ss : List String) (ds : List Int),
    ss.mapM pyInt = some ds → ds.length = ss.length := by
  intro ss
  induction ss with
  | nil =>
    intro ds h
    simp only [List.mapM_nil, Option.pure_def, Option.some.injEq] at h
    subst h
    rfl
  | cons a tl ih =>
    intro ds h
    rw [List.mapM_cons] at h
    cases hx : pyInt a with
    | none => rw [hx] at h; simp at h
    | some v =>
      rw [hx] at h
      cases hts : tl.mapM pyInt with
      | none => rw [hts] at h; simp at h
      | some ds2 =>
        rw [hts] at h
        simp only [Option.bind_eq_bind, Option.some_bind, Option.pure_def,
          Option.some.injEq] at h
        subst h
        simp [ih ds2 hts]

/-! ### Claim theorems -/

/-- Claim C1: when the `--gpu` argument parses as a comma-separated list
of `n` device ids, the main entry point spawns exactly `n` worker
processes (`nprocs = len(devices)` equals the number of comma-separated
pieces, process ids `0 .. n-1`), and the worker with process id `p`
selects device `devices[p]`. -/
theorem c1_one_worker_per_device (gpu : String) (ds : List Int)
    (hp : mainDevices gpu = some ds) :
    ds.length = (pySplit gpu ',').length ∧
    (spawnProcIds ds.length).length = ds.length ∧
    spawnProcIds ds.length = List.range ds.length ∧
    ∀ (p : Nat) (hlt : p < ds.length), runDevice ds p = some (ds.get ⟨p, hlt⟩) := by
  refine ⟨mapM_pyInt_length _ _ hp, by simp [spawnProcIds], rfl, ?_⟩
  intro p hlt
  simp [runDevice, List.getElem?_eq_getElem hlt]

theorem c1_witness :
    (spawnProcIds 3).length = 3 ∧ runDevice [0, 1, 2] 1 = some 1 := by
  obtain ⟨_, h1, _, h3⟩ := c1_one_worker_per_device "0,1,2" [0, 1, 2] (by decide)
  exact ⟨h1, by simpa using h3 1 (by decide)⟩

/-- Claim C3: model selection is by string. `args.model == "sage"` builds
a SAGE instance with `hidden_dim` hidden units and `num_classes` outputs;
`args.model == "gat"` builds (when construction succeeds) a GAT instance
with those sizes; any other string builds no model, so exactly the two
families are supported. -/
theorem c3_model_selection (s : String) (in_size hidden_dim num_classes : Nat)
    (head : List Int) :
    (runBuildModel "sage" in_size hidden_dim num_classes head =
        .ok (.sage (SAGE.init in_size hidden_dim num_classes)) ∧
      (SAGE.init in_size hidden_dim num_classes).hid_size = hidden_dim ∧
      (SAGE.init in_size hidden_dim num_classes).out_size = num_classes) ∧
    (∀ m, runBuildModel "gat" in_size hidden_dim num_classes head = .ok m →
      ∃ gm, m = .gat gm ∧ gm.hid_size = hidden_dim ∧ gm.out_size = num_classes) ∧
    (s ≠ "sage" → s ≠ "gat" →
      ∀ m, runBuildModel s in_size hidden_dim num_classes head ≠ .ok m) := by
  refine ⟨⟨rfl, rfl, rfl⟩, ?_, ?_⟩
  · intro m hm
    unfold runBuildModel at hm
    simp only [String.reduceEq, if_false, if_true, reduceIte] at hm
    cases hgat : GAT.init in_size hidden_dim num_classes head with
    | error e =>
      rw [hgat] at hm
      cases e <;> simp at hm
    | ok gmm =>
      rw [hgat] at hm
      simp only [Except.ok.injEq] at hm
      obtain ⟨_, _, hhid, hout, _⟩ :=
        GAT.init_ok in_size hidden_dim num_classes head gmm hgat
      exact ⟨gmm, hm.symm, hhid, hout⟩
  · intro hs hg m
    unfold runBuildModel
    simp [hs, hg]

theorem c3_witness :
    runBuildModel "sage" 4 32 7 [1] = .ok (.sage (SAGE.init 4 32 7)) ∧
    runBuildModel "gcn" 4 32 7 [1] ≠ .ok (.sage (SAGE.init 4 32 7)) := by
  obtain ⟨⟨h1, _, _⟩, _, h3⟩ := c3_model_selection "gcn" 4 32 7 [1]
  exact ⟨h1, h3 (by decide) (by decide) _⟩

/-- Claim C6: the SAGE model has exactly three SAGEConv layers with
"mean" aggregation and widths `in -> hid -> hid -> out`, and
`SAGE.forward` applies the layers in order with ReLU then dropout after
every layer except the last, which gets neither. -/
theorem c6_sage_structure (in_size hid_size out_size : Nat) :
    (SAGE.init in_size hid_size out_size).layers =
      [⟨in_size, hid_size, "mean"⟩, ⟨hid_size, hid_size, "mean"⟩,
       ⟨hid_size, out_size, "mean"⟩] ∧
    (∀ (α β : Type) (relu dropout : α → α) (f0 f1 f2 : β → α → α)
        (b0 b1 b2 : β) (x : α),
      SAGE.forward relu dropout [f0, f1, f2] [b0, b1, b2] x =
        f2 b2 (dropout (relu (f1 b1 (dropout (relu (f0 b0 x))))))) := by
  refine ⟨rfl, ?_⟩
  intro α β relu dropout f0 f1 f2 b0 b1 b2 x
  rfl

/-- Claim C9: for every `args.model` string other than `"sage"` and
`"gat"`, no branch assigns `model`, so `run` fails with an unbound-local
error at the `DistributedDataParallel(model, ...)` call; there is no
default model and no explicit diagnostic. -/
theorem c9_unbound_local_model (s : String) (hs1 : s ≠ "sage") (hs2 : s ≠ "gat")
    (proc_id nprocs : Nat) (mode : String)
    (in_size hidden_dim num_classes : Nat) (head : List Int) :
    run.setup proc_id nprocs mode s in_size hidden_dim num_classes head =
      .error .unboundLocalModel := by
  unfold run.setup runBuildModel
  simp [hs1, hs2, Except.map]

/-- Claim C4: the training and validation DataLoaders both use the
NeighborSampler with fanouts `[10, 10, 10]` — at most 10 sampled
neighbors per node at each of the three layers — while every inference
DataLoader uses the full-neighbor sampler. -/
theorem c4_sampler_fanouts (mode : String) (num_workers : Nat)
    (train_idx val_idx : List Nat) (use_uva : Bool)
    (numNodes batch_size : Nat) (uva2 : Bool) :
    ((train.loaderCfgs mode num_workers train_idx val_idx use_uva).length = 2 ∧
      ∀ cfg ∈ train.loaderCfgs mode num_workers train_idx val_idx use_uva,
        cfg.sampler = .neighbor [10, 10, 10] (mode ≠ "benchmark")) ∧
    (inferLoaderCfg numNodes batch_size uva2).sampler = .fullNeighbor 1 ∧
    (∀ (nd : NData) (total : Nat) (colsOf : Nat → Int) (r : InferResult),
      inferenceBody numNodes nd batch_size uva2 total colsOf = some r →
      ∀ cfg ∈ r.loaders, cfg.sampler = .fullNeighbor 1) := by
  refine ⟨⟨rfl, ?_⟩, rfl, ?_⟩
  · intro cfg hcfg
    simp only [train.loaderCfgs, List.mem_cons, List.not_mem_nil,
      or_false] at hcfg
    rcases hcfg with h | h <;> subst h <;> rfl
  · intro nd total colsOf r hr cfg hcfg
    rw [inferenceBody_loaders numNodes nd batch_size uva2 total colsOf r hr
      cfg hcfg]
    rfl

theorem c4_witness :
    (train.loaderCfgs "mixed" 0 [0, 1] [2] true).length = 2 ∧
    (inferLoaderCfg 5 4 true).sampler = .fullNeighbor 1 := by
  obtain ⟨⟨h1, _⟩, h2, _⟩ := c4_sampler_fanouts "mixed" 0 [0, 1] [2] true 5 4 true
  exact ⟨h1, h2⟩

/-- Claim C5: UVA is enabled iff the training mode is `"mixed"`: `run`
computes `use_uva = (args.mode == "mixed")` and passes it to the training
and validation DataLoaders and to every inference DataLoader, and in
non-UVA inference the graph is first moved to the device. -/
theorem c5_uva_iff_mixed (mode : String) (num_workers : Nat)
    (train_idx val_idx : List Nat) (g : DGLGraph) (model : Model) :
    (run.use_uva mode = true ↔ mode = "mixed") ∧
    (∀ cfg ∈ run.trainCfgs mode num_workers train_idx val_idx,
      cfg.useUva = run.use_uva mode) ∧
    (∀ oc, run.layerwiseInfer mode g model = some oc →
      (∀ cfg ∈ oc.result.loaders, cfg.useUva = run.use_uva mode) ∧
      oc.graphMovedToDevice = !run.use_uva mode) := by
  refine ⟨?_, ?_, ?_⟩
  · simp [run.use_uva]
  · intro cfg hcfg
    simp only [run.trainCfgs, train.loaderCfgs, List.mem_cons, List.not_mem_nil,
      or_false] at hcfg
    rcases hcfg with h | h <;> subst h <;> rfl
  · intro oc hoc
    unfold run.layerwiseInfer layerwise_infer at hoc
    cases model with
    | sage m =>
      simp only [Option.map_eq_some'] at hoc
      obtain ⟨r, hr, hocq⟩ := hoc
      subst hocq
      refine ⟨?_, rfl⟩
      intro cfg hcfg
      rw [inferenceBody_loaders g.numNodes g.ndata (2 ^ 10) (run.use_uva mode)
        m.layers.length _ r hr cfg hcfg]
      rfl
    | gat m =>
      simp only [Option.map_eq_some'] at hoc
      obtain ⟨r, hr, hocq⟩ := hoc
      subst hocq
      refine ⟨?_, rfl⟩
      intro cfg hcfg
      rw [inferenceBody_loaders g.numNodes g.ndata (2 ^ 10) (run.use_uva mode)
        m.layers.length _ r hr cfg hcfg]
      rfl

theorem c5_witness :
    (run.use_uva "mixed" = true ↔ "mixed" = "mixed") ∧
    run.use_uva "puregpu" = false := by
  obtain ⟨h1, _, _⟩ := c5_uva_iff_mixed "mixed" 0 [] [] ⟨0, []⟩
    (.sage (SAGE.init 1 1 1))
  exact ⟨h1, by decide⟩

/-- Claim C7: training is data-parallel distributed: `run` initializes an
NCCL process group of size `nprocs` with rank `proc_id`, wraps the built
model in DistributedDataParallel, and each training-loop iteration
performs exactly one gradient synchronization — at `loss.backward()`,
which precedes `opt.step()`. -/
theorem c7_ddp_training (proc_id nprocs : Nat) (mode modelArg : String)
    (in_size hidden_dim num_classes : Nat) (head : List Int) (s : RunSetup)
    (h : run.setup proc_id nprocs mode modelArg in_size hidden_dim num_classes
        head = .ok s) :
    s.pg.backend = "nccl" ∧ s.pg.world_size = nprocs ∧ s.pg.rank = proc_id ∧
    s.ddpWrapped = true ∧
    train.stepOps.filter (syncsGradients s.ddpWrapped) = [.backward] ∧
    train.stepOps.indexOf .backward < train.stepOps.indexOf .optStep := by
  unfold run.setup at h
  cases hb : runBuildModel modelArg in_size hidden_dim num_classes head with
  | error e =>
    rw [hb] at h
    simp [Except.map] at h
  | ok m =>
    rw [hb] at h
    simp only [Except.map, Except.ok.injEq] at h
    subst h
    refine ⟨rfl, rfl, rfl, rfl, ?_, by decide⟩
    show train.stepOps.filter (syncsGradients true) = [.backward]
    decide

theorem c7_witness :
    train.stepOps.filter (syncsGradients true) = [TrainOp.backward] := by
  obtain ⟨_, _, _, _, h5, _⟩ := c7_ddp_training 0 2 "mixed" "sage" 4 32 7 [1]
    ⟨run.processGroup 2 0, .sage (SAGE.init 4 32 7), true, run.use_uva "mixed"⟩
    rfl
  exact h5

/-- Claim C8: constructing a GAT model succeeds exactly when the head
list's last element is 1 (any other last element fails the assertion,
and an empty list fails indexing), a successful construction has exactly
`len(n_heads)` layers, and the default `--head` value `"0"` parses to
`[0]`, with which `--model gat` cannot construct a model. -/
theorem c8_gat_head_assertion (in_size hid_size out_size : Nat)
    (heads : List Int) :
    ((∃ m, GAT.init in_size hid_size out_size heads = .ok m) ↔
      heads.getLast? = some 1) ∧
    (∀ m, GAT.init in_size hid_size out_size heads = .ok m →
      m.layers.length = heads.length) ∧
    parseHead "0" = some [0] ∧
    runBuildModel "gat" in_size hid_size out_size [0] =
      .error .gatAssertionError := by
  refine ⟨⟨?_, ?_⟩, ?_, by decide, ?_⟩
  · rintro ⟨m, hm⟩
    exact (GAT.init_ok _ _ _ _ _ hm).1
  · intro h
    exact GAT.init_of_getLast _ _ _ _ h
  · intro m hm
    exact (GAT.init_ok _ _ _ _ _ hm).2.1
  · rfl

theorem c8_witness :
    (∃ m, GAT.init 4 8 3 [2, 1] = .ok m) ∧
    runBuildModel "gat" 4 8 3 [0] = .error .gatAssertionError := by
  obtain ⟨hiff, _, _, hrb⟩ := c8_gat_head_assertion 4 8 3 [2, 1]
  exact ⟨hiff.mpr (by decide), hrb⟩

theorem c9_witness :
    run.setup 0 2 "mixed" "gcn" 4 32 7 [1] = .error .unboundLocalModel :=
  c9_unbound_local_model "gcn" (by decide) (by decide) 0 2 "mixed" 4 32 7 [1]

/-- Claim C2: inference is full-graph: both `SAGE.inference` and
`GAT.inference` build every per-layer DataLoader over
`torch.arange(g.num_nodes())` (all node ids `0 .. num_nodes-1`) with
`shuffle=False` and `drop_last=False` and the full-neighbor sampler
rather than a subsampling one, and the returned output tensor has
exactly `g.num_nodes()` rows. -/
theorem c2_full_graph_inference (in_size hid out : Nat) (g : DGLGraph)
    (batch_size : Nat) (uva : Bool) (feats : Tensor)
    (hf : g.ndata.lookup "features" = some feats)
    (gm : GATModel) (in2 hid2 out2 : Nat) (heads : List Int)
    (hg : GAT.init in2 hid2 out2 heads = .ok gm) :
    (∃ r, SAGE.inference (SAGE.init in_size hid out) g batch_size uva = some r ∧
      r.loaders.length = 3 ∧
      (∀ cfg ∈ r.loaders, cfg.indices = List.range g.numNodes ∧
        cfg.shuffle = false ∧ cfg.dropLast = false ∧
        cfg.sampler = .fullNeighbor 1) ∧
      r.output.rows = g.numNodes) ∧
    (∃ r, GAT.inference gm g batch_size uva = some r ∧
      r.loaders.length = gm.layers.length ∧
      (∀ cfg ∈ r.loaders, cfg.indices = List.range g.numNodes ∧
        cfg.shuffle = false ∧ cfg.dropLast = false ∧
        cfg.sampler = .fullNeighbor 1) ∧
      r.output.rows = g.numNodes) := by
  obtain ⟨hL1, hlen, _, _, _⟩ := GAT.init_ok in2 hid2 out2 heads gm hg
  have hpos : 0 < gm.layers.length := by
    rw [hlen]
    cases heads with
    | nil => simp at hL1
    | cons a tl => simp
  constructor
  · obtain ⟨r, hr, hload, hrows, _, _⟩ := inferenceBody_spec g.numNodes g.ndata
      batch_size uva (SAGE.init in_size hid out).layers.length
      (fun l => if l ≠ (SAGE.init in_size hid out).layers.length - 1
        then ((SAGE.init in_size hid out).hid_size : Int)
        else ((SAGE.init in_size hid out).out_size : Int)) feats hf
      (by show 0 < 3; norm_num)
    refine ⟨r, hr, ?_, ?_, hrows⟩
    · rw [hload]
      simp [SAGE.init]
    · intro cfg hcfg
      have hc := inferenceBody_loaders _ _ _ _ _ _ r hr cfg hcfg
      subst hc
      exact ⟨rfl, rfl, rfl, rfl⟩
  · obtain ⟨r, hr, hload, hrows, _, _⟩ := inferenceBody_spec g.numNodes g.ndata
      batch_size uva gm.layers.length
      (fun l => if l ≠ gm.layers.length - 1
        then (gm.hid_size : Int) * gm.n_heads.getD l 0
        else (gm.out_size : Int) * gm.n_heads.getD l 0) feats hf hpos
    refine ⟨r, hr, ?_, ?_, hrows⟩
    · rw [hload]
      simp
    · intro cfg hcfg
      have hc := inferenceBody_loaders _ _ _ _ _ _ r hr cfg hcfg
      subst hc
      exact ⟨rfl, rfl, rfl, rfl⟩

theorem c2_witness :
    ∃ r, SAGE.inference (SAGE.init 4 8 3) ⟨5, [("features", ⟨5, 4⟩)]⟩ 2 true =
      some r ∧ r.output.rows = 5 := by
  obtain ⟨⟨r, hr, _, _, hrows⟩, _⟩ := c2_full_graph_inference 4 8 3
    ⟨5, [("features", ⟨5, 4⟩)]⟩ 2 true ⟨5, 4⟩ (by decide)
    ⟨2, 8, 3, [2, 1], [⟨4, 8, 2, true, true⟩, ⟨16, 3, 1, false, true⟩]⟩
    4 8 3 [2, 1] rfl
  exact ⟨r, hr, hrows⟩

/-- Claim C10: inference leaves the node-data frame as it found it apart
from producing its return value: after `SAGE.inference` or
`GAT.inference` returns, the frame contains no "h" key, and every other
key — such as "features" and "labels" — maps to the tensor it held
before. -/
theorem c10_inference_frame (sm : SAGEModel) (gm : GATModel) (g : DGLGraph)
    (batch_size : Nat) (uva : Bool) :
    (∀ r, SAGE.inference sm g batch_size uva = some r →
      r.ndataAfter.lookup "h" = none ∧
      ∀ a, a ≠ "h" → r.ndataAfter.lookup a = g.ndata.lookup a) ∧
    (∀ r, GAT.inference gm g batch_size uva = some r →
      r.ndataAfter.lookup "h" = none ∧
      ∀ a, a ≠ "h" → r.ndataAfter.lookup a = g.ndata.lookup a) :=
  ⟨fun r hr => inferenceBody_frame _ _ _ _ _ _ r hr,
   fun r hr => inferenceBody_frame _ _ _ _ _ _ r hr⟩

theorem c10_witness :
    (⟨[inferLoaderCfg 5 2 true, inferLoaderCfg 5 2 true, inferLoaderCfg 5 2 true],
      [("features", ⟨5, 4⟩), ("labels", ⟨5, 1⟩)], ⟨5, 3⟩⟩ :
        InferResult).ndataAfter.lookup "h" = none ∧
    (⟨[inferLoaderCfg 5 2 true, inferLoaderCfg 5 2 true, inferLoaderCfg 5 2 true],
      [("features", ⟨5, 4⟩), ("labels", ⟨5, 1⟩)], ⟨5, 3⟩⟩ :
        InferResult).ndataAfter.lookup "labels" = some ⟨5, 1⟩ := by
  have h := (c10_inference_frame (SAGE.init 4 8 3) ⟨0, 0, 0, [], []⟩
    ⟨5, [("features", ⟨5, 4⟩), ("labels", ⟨5, 1⟩)]⟩ 2 true).1
    ⟨[inferLoaderCfg 5 2 true, inferLoaderCfg 5 2 true, inferLoaderCfg 5 2 true],
      [("features", ⟨5, 4⟩), ("labels", ⟨5, 1⟩)], ⟨5, 3⟩⟩ (by decide)
  refine ⟨h.1, ?_⟩
  rw [h.2 "labels" (by decide)]
  decide

end Multigpu
